import Mathlib

/-!
Shallow embedding of the VirtualPad server (HawaTechnologies/virtualpad-server)
slot manager, device-emission layer, pad protocol loop, broadcast fan-out and
password store, together with theorems checking the behavioural claims of the
specification against this embedding.

Conventions:
* Python integers are `Int`; timestamps (`datetime.datetime.now()`) are `Int`.
* Fallible Python code returns `Except PyError _`; a raised exception that the
  caller does not catch is an `.error` value.  Mutation of an object becomes
  explicit state passing: a method on `PadSlot` returns the updated slot.
* A `uinput` device is identified by the name it was created with; events sent
  to a device are collected in an output trace (`List EmitOut`).
-/

/-- Python-level exceptions raised by the embedded code.  `typeError` stands
for a `TypeError` raised by the interpreter itself (wrong call arity or an
unsupported operand type). -/
inductive PyError where
  | typeError : PyError
  | padIndexOutOfRange : Int → PyError
  | padInUse : Int → PyError
  | padNotInUse : Int → PyError
  | authenticationFailed : PyError
  | padMismatch : Int → PyError
  deriving Repr, DecidableEq

/-- `PadSlot.Status` from `src/virtualpad/pads/__init__.py`. -/
inductive Status where
  | EMPTY
  | OCCUPIED
  | RECENTLY_USED
  deriving Repr, DecidableEq

/-- Resolution of a Python list index `i` against a list of length `len`:
non-negative indices address from the front, negative indices from the back,
anything outside `[-len, len)` raises `IndexError` (modelled as `none`). -/
def pyIdx (len : Nat) (i : Int) : Option Nat :=
  if 0 ≤ i ∧ i < len then some i.toNat
  else if -(len : Int) ≤ i ∧ i < 0 then some ((len : Int) + i).toNat
  else none

/-- Python `l[i]` for a list. -/
def pyGet {α : Type} (l : List α) (i : Int) : Option α :=
  (pyIdx l.length i).bind l.get?

/-- Python `l[i] = a` for a list (callers only reach this with an index that
resolves; an unresolvable index leaves the list unchanged here, whereas Python
would raise `IndexError` — the theorems that rely on `pySet` carry a length
hypothesis that rules that case out). -/
def pySet {α : Type} (l : List α) (i : Int) (a : α) : List α :=
  match pyIdx l.length i with
  | some n => l.set n a
  | none => l

/-- Python `[a, b][v]`, list indexing with an arbitrary integer: `0` and `-2`
yield `a`, `1` and `-1` yield `b`, anything else raises `IndexError`. -/
def pyPair {α : Type} (a b : α) (v : Int) : Option α :=
  if v = 0 ∨ v = -2 then some a
  else if v = 1 ∨ v = -1 then some b
  else none

/-- One event written to a `uinput` device.
`scan v` is `device.emit((0x04, 0x04), v, syn=False)`;
`key c v` is `device.emit((0x01, c), v, syn=False)`;
`abs a v` is an absolute-axis emission on logical axis `a` (14 = ABS_X,
15 = ABS_Y, 16 = ABS_RX, 17 = ABS_RY); `syn` is a synchronisation event. -/
inductive EmitOut where
  | scan : Int → EmitOut
  | key : Int → Int → EmitOut
  | abs : Int → Int → EmitOut
  | syn : EmitOut
  deriving Repr, DecidableEq

/-- Python set insertion, modelled on a duplicate-free list: `s | {v}`. -/
def setAdd (s : List Int) (v : Int) : List Int :=
  if v ∈ s then s else s ++ [v]

/-- The four accumulator variables of `devices.emit`
(`abs_x_forced`, `abs_y_forced`, `abs_x_changes`, `abs_y_changes`) together
with the trace of events already written to the device. -/
structure EmitState where
  absXForced : Bool := false
  absYForced : Bool := false
  absXChanges : Option (List Int) := none
  absYChanges : Option (List Int) := none
  out : List EmitOut := []
  deriving Repr, DecidableEq

def initEmitState : EmitState := {}

/-- One iteration of the event loop of `emit` in
`src/virtualpad/pads/devices.py` (lines 97–119).  `none` models an exception
escaping the iteration (the `[127, x][value]` indexing with a value outside
`{-2, -1, 0, 1}`, or `mapped_axes[event - 14]` with `event ≥ 18`); the
surrounding `try`/`except` then abandons the rest of the frame. -/
def emitStep (st : EmitState) (ev : Int × Int) : Option EmitState :=
  if ev.1 < 10 then
    some { st with out := st.out ++
      [.scan (0x90001 + ev.1), .key (0x120 + ev.1) (if ev.2 ≠ 0 then 1 else 0)] }
  else if ev.1 < 14 then
    if ev.1 = 10 then      -- BTN_UP:    {[127, 0][value]}
      (pyPair 127 0 ev.2).map fun c =>
        { st with absYChanges := some (setAdd (st.absYChanges.getD []) c) }
    else if ev.1 = 11 then -- BTN_DOWN:  {[127, 255][value]}
      (pyPair 127 255 ev.2).map fun c =>
        { st with absYChanges := some (setAdd (st.absYChanges.getD []) c) }
    else if ev.1 = 12 then -- BTN_LEFT:  {[127, 0][value]}
      (pyPair 127 0 ev.2).map fun c =>
        { st with absXChanges := some (setAdd (st.absXChanges.getD []) c) }
    else                   -- BTN_RIGHT: {[127, 255][value]}
      (pyPair 127 255 ev.2).map fun c =>
        { st with absXChanges := some (setAdd (st.absXChanges.getD []) c) }
  else
    if ev.1 ≥ 18 then none -- mapped_axes[event - 14] raises IndexError
    else
      some { st with
        absXForced := st.absXForced || decide (ev.1 = 14),
        absYForced := st.absYForced || decide (ev.1 = 15),
        out := st.out ++ [.abs ev.1 (min 255 (max 0 ev.2))] }

/-- Folds `emitStep` over the frame; the `Bool` records whether an exception
aborted the loop (in which case the partial trace stands, and the
final D-pad folding and the sync are skipped). -/
def emitFold : List (Int × Int) → EmitState → EmitState × Bool
  | [], st => (st, false)
  | ev :: rest, st =>
    match emitStep st ev with
    | none => (st, true)
    | some st' => emitFold rest st'

/-- The trailing D-pad-derived axis emission of `devices.emit`
(lines 124–130): skipped when the axis was explicitly forced or no D-pad
event touched it; otherwise `127` is discarded from the pending set and the
unique remaining value is emitted, `127` when none or several remain. -/
def dpadFinal (forced : Bool) (changes : Option (List Int)) (axis : Int) :
    List EmitOut :=
  if forced then []
  else
    match changes with
    | none => []
    | some s =>
      let s' := s.filter (fun v => v ≠ 127)
      [.abs axis (if s'.length = 1 then s'.headD 0 else 127)]

/-- `emit(device, events)` from `src/virtualpad/pads/devices.py`
(lines 73–134), as the trace of events the device receives. -/
def devices_emit (events : List (Int × Int)) : List EmitOut :=
  let r := emitFold events initEmitState
  if r.2 then r.1.out
  else
    r.1.out
      ++ dpadFinal r.1.absXForced r.1.absXChanges 14
      ++ dpadFinal r.1.absYForced r.1.absYChanges 15
      ++ [.syn]

/-- The neutral frame of `emit_zero` (devices.py lines 59–70): buttons
`0 … 13` released, axes `14 … 17` centred at 127. -/
def zeroFrame : List (Int × Int) :=
  ((List.range 14).map fun i => ((i : Int), (0 : Int)))
    ++ ((List.range 4).map fun i => ((14 + i : Int), (127 : Int)))

/-- `emit_zero(device)`: the trace the device receives for the neutral frame. -/
def emit_zero_out : List EmitOut := devices_emit zeroFrame

/-- One iteration of the event loop of `_pad_send_all_mode1` in
`src/virtualpad/pads.py` (lines 300–322).  It differs from `devices.emit` in
two places: the D-pad LEFT/RIGHT additions use the swapped tables
`{[127, 255][value]}` / `{[127, 0][value]}`, and the explicit-axis branch
calls `device.emit` without `syn=False`, so each explicit axis event is
followed by a synchronisation. -/
def mode1Step (st : EmitState) (ev : Int × Int) : Option EmitState :=
  if ev.1 < 10 then
    some { st with out := st.out ++
      [.scan (0x90001 + ev.1), .key (0x120 + ev.1) (if ev.2 ≠ 0 then 1 else 0)] }
  else if ev.1 < 14 then
    if ev.1 = 10 then      -- BTN_UP:    {[127, 0][value]}
      (pyPair 127 0 ev.2).map fun c =>
        { st with absYChanges := some (setAdd (st.absYChanges.getD []) c) }
    else if ev.1 = 11 then -- BTN_DOWN:  {[127, 255][value]}
      (pyPair 127 255 ev.2).map fun c =>
        { st with absYChanges := some (setAdd (st.absYChanges.getD []) c) }
    else if ev.1 = 12 then -- BTN_LEFT:  {[127, 255][value]}
      (pyPair 127 255 ev.2).map fun c =>
        { st with absXChanges := some (setAdd (st.absXChanges.getD []) c) }
    else                   -- BTN_RIGHT: {[127, 0][value]}
      (pyPair 127 0 ev.2).map fun c =>
        { st with absXChanges := some (setAdd (st.absXChanges.getD []) c) }
  else
    if ev.1 ≥ 18 then none -- mapped_axes[event - 14] raises IndexError
    else
      some { st with
        absXForced := st.absXForced || decide (ev.1 = 14),
        absYForced := st.absYForced || decide (ev.1 = 15),
        out := st.out ++ [.abs ev.1 (min 255 (max 0 ev.2)), .syn] }

/-- Folds `mode1Step` over the frame; an exception escapes `_pad_send_all_mode1`
itself and is caught by the `try`/`except` of `_pad_send_all`, abandoning the
rest of the frame. -/
def mode1Fold : List (Int × Int) → EmitState → EmitState × Bool
  | [], st => (st, false)
  | ev :: rest, st =>
    match mode1Step st ev with
    | none => (st, true)
    | some st' => mode1Fold rest st'

/-- `_pad_send_all_mode1(device, events)` from `src/virtualpad/pads.py`
(lines 275–334), as the trace of events the device receives.  The trailing
D-pad folding (lines 327–333) is identical to the one in `devices.emit`. -/
def pad_send_all_mode1 (events : List (Int × Int)) : List EmitOut :=
  let r := mode1Fold events initEmitState
  if r.2 then r.1.out
  else
    r.1.out
      ++ dpadFinal r.1.absXForced r.1.absXChanges 14
      ++ dpadFinal r.1.absYForced r.1.absYChanges 15
      ++ [.syn]

/-- A pad slot (`PadSlot.__init__`, `src/virtualpad/pads/__init__.py`
lines 27–40).  The device is identified by the name `make` was called with;
`none` means no device exists. -/
structure PadSlot where
  pad_index : Int
  name : String
  status : Status
  device : Option String
  nickname : String
  connection_index : Int
  last_user_stamp : Option Int
  deriving Repr, DecidableEq

/-- The state a slot is constructed in. -/
def PadSlot.init (pad_index : Int) : PadSlot :=
  { pad_index := pad_index
    name := "Hawa-VirtualPad-" ++ toString pad_index
    status := .EMPTY
    device := none
    nickname := ""
    connection_index := -1
    last_user_stamp := none }

/-- `PadSlot.occupy` (lines 66–80): fails with `PadInUse` when `OCCUPIED`,
otherwise becomes `OCCUPIED`, records nickname and connection index, and
creates the device only when absent.  It does not touch `_last_user_stamp`. -/
def PadSlot.occupy (s : PadSlot) (nickname : String) (connection_index : Int) :
    Except PyError PadSlot :=
  if s.status = .OCCUPIED then .error (.padInUse s.pad_index)
  else .ok { s with
    status := .OCCUPIED
    nickname := nickname
    connection_index := connection_index
    device := if s.device = none then some s.name else s.device }

/-- `PadSlot.release` (lines 82–117), returning the updated slot and the trace
emitted to the device.  `now` stands for `datetime.datetime.now()`.
With `force` the slot must not be `EMPTY` and is fully cleared (neutral frame
first when `zero` and a device exists); without `force` the slot must be
`OCCUPIED`, and when `expect` is `-1` or the current connection index it moves
to `RECENTLY_USED` (neutral frame when `zero`), otherwise nothing happens. -/
def PadSlot.release (s : PadSlot) (force : Bool) (expect : Int) (zero : Bool)
    (now : Int) : Except PyError (PadSlot × List EmitOut) :=
  if force then
    if s.status = .EMPTY then .error (.padNotInUse s.pad_index)
    else .ok
      ({ s with status := .EMPTY, nickname := "", connection_index := -1,
                last_user_stamp := none, device := none },
       if zero ∧ s.device ≠ none then emit_zero_out else [])
  else
    if s.status ≠ .OCCUPIED then .error (.padNotInUse s.pad_index)
    else if expect = -1 ∨ expect = s.connection_index then .ok
      ({ s with status := .RECENTLY_USED, nickname := "", connection_index := -1,
                last_user_stamp := some now },
       if zero then emit_zero_out else [])
    else .ok (s, [])

/-- `PadSlot.emit` (lines 119–129).  After the `OCCUPIED` check the source
calls the module-level `emit` of `devices.py` as `emit(events)` — a single
argument, although `devices.emit(device, events)` takes two — so the call
raises `TypeError: emit() missing 1 required positional argument` before any
event reaches the device. -/
def PadSlot.emit (s : PadSlot) (_events : List (Int × Int)) :
    Except PyError (List EmitOut) :=
  if s.status ≠ .OCCUPIED then .error (.padNotInUse s.pad_index)
  else .error .typeError

/-- `PadSlot.heartbeat` (lines 131–144).  The source guard is
`self._status == self.Status.RECENTLY_USED and
(datetime.datetime.now() - self._status).total_seconds() > SLOTS_HEARTBEAT_TIME`:
the second conjunct subtracts the `Status` enum from a datetime, which raises
`TypeError`, so a `RECENTLY_USED` slot always raises; for any other status the
short-circuit `and` never evaluates the subtraction and the call returns
`False` with the slot unchanged. -/
def PadSlot.heartbeat (s : PadSlot) : Except PyError (PadSlot × Bool) :=
  if s.status = .RECENTLY_USED then .error .typeError
  else .ok (s, false)

/-- `PadSlot.serialize` (lines 146–156). -/
def PadSlot.serialize (s : PadSlot) : String × String :=
  if s.status = .OCCUPIED then ("occupied", s.nickname)
  else if s.status = .RECENTLY_USED then ("recently-used", "")
  else ("empty", "")

/-- Modelled from the spec: `src/virtualpad/pads/constants.py` is absent from
the sources (`pads/__init__.py` and `pads/settings.py` import `SLOTS_INDICES`
from it).  The spec fixes the slot count at `N = 8`, so the slot indices are
`0 … 7`. -/
def SLOTS_INDICES : List Int := [0, 1, 2, 3, 4, 5, 6, 7]

/-- `passwords_check(index, password)` from `src/virtualpad/pads/settings.py`
(lines 42–50): `index in SLOTS_INDICES and load()["passwords"][index] ==
password`.  The persisted password vector is passed in explicitly instead of
being re-read from disk; the store always holds one password per slot, so the
`[index]` lookup (only ever evaluated with `index ∈ 0 … 7`) is modelled with
`pyGet` (a lookup past the end of a shorter vector compares unequal here
where Python would raise `IndexError`). -/
def passwords_check (passwords : List String) (index : Int) (password : String) :
    Bool :=
  decide (index ∈ SLOTS_INDICES) && (pyGet passwords index == some password)

/-- `PadSlots.__init__` (`src/virtualpad/pads/__init__.py` line 164–165):
one fresh slot per index. -/
def PadSlots.init : List PadSlot := SLOTS_INDICES.map PadSlot.init

/-- `PadSlots.occupy` (lines 176–192): `self._slots[pad_index]` inside
`try`/`except IndexError` — Python list indexing, so a negative index within
`[-8, -1]` resolves to a slot from the back instead of raising — then the
password check, then `PadSlot.occupy`. -/
def PadSlots.occupy (slots : List PadSlot) (passwords : List String)
    (pad_index : Int) (nickname : String) (password : String)
    (connection_index : Int) : Except PyError (List PadSlot) :=
  match pyGet slots pad_index with
  | none => .error (.padIndexOutOfRange pad_index)
  | some pad =>
    if ¬ passwords_check passwords pad_index password then
      .error .authenticationFailed
    else
      (pad.occupy nickname connection_index).map fun p => pySet slots pad_index p

/-- `PadSlots.release` (lines 194–213): the same `try`/`except IndexError`
lookup, then `PadSlot.release`. -/
def PadSlots.release (slots : List PadSlot) (pad_index : Int) (force : Bool)
    (expect : Int) (zero : Bool) (now : Int) :
    Except PyError (List PadSlot × List EmitOut) :=
  match pyGet slots pad_index with
  | none => .error (.padIndexOutOfRange pad_index)
  | some pad =>
    (pad.release force expect zero now).map fun r =>
      (pySet slots pad_index r.1, r.2)

/-- `PadSlots.emit` (lines 223–241): the same lookup, then the
connection-index guard `expect not in [-1, pad.connection_index]`, then
`PadSlot.emit`. -/
def PadSlots.emit (slots : List PadSlot) (pad_index : Int)
    (events : List (Int × Int)) (expect : Int) :
    Except PyError (List EmitOut) :=
  match pyGet slots pad_index with
  | none => .error (.padIndexOutOfRange pad_index)
  | some pad =>
    if ¬ (expect = -1 ∨ expect = pad.connection_index) then
      .error (.padMismatch pad_index)
    else pad.emit events

/-- The loop body of `PadSlots.release_all` (lines 215–221):
`self.release(index, force=True, zero=True)` over `SLOTS_INDICES` in order.
An exception aborts the loop; the slots already released stay released.
The result carries the slots as mutated so far, the accumulated device
traces, and the escaping exception, if any. -/
def releaseAllGo : List Int → List PadSlot → List EmitOut →
    List PadSlot × List EmitOut × Option PyError
  | [], slots, outs => (slots, outs, none)
  | i :: rest, slots, outs =>
    match PadSlots.release slots i true (-1) true 0 with
    | .ok r => releaseAllGo rest r.1 (outs ++ r.2)
    | .error e => (slots, outs, some e)

/-- `PadSlots.release_all()`. -/
def PadSlots.release_all (slots : List PadSlot) :
    List PadSlot × List EmitOut × Option PyError :=
  releaseAllGo SLOTS_INDICES slots []

/-- `PadSlots.heartbeat` (lines 243–249): `[pad.heartbeat() for pad in
self._slots]` — the comprehension stops at the first slot whose heartbeat
raises, leaving earlier results computed. -/
def PadSlots.heartbeat (slots : List PadSlot) :
    Except PyError (List PadSlot × List Bool) :=
  match slots with
  | [] => .ok ([], [])
  | s :: rest =>
    match s.heartbeat with
    | .error e => .error e
    | .ok (s', b) =>
      match PadSlots.heartbeat rest with
      | .error e => .error e
      | .ok (rest', bs) => .ok (s' :: rest', b :: bs)

/-- `PadSlots.serialize` (lines 251–257). -/
def PadSlots.serialize (slots : List PadSlot) : List (String × String) :=
  slots.map PadSlot.serialize

/-- What an admin connection observes from one command: the response codes
written back, the notifications broadcast, and the slot array afterwards. -/
structure AdminOutcome where
  responses : List String
  broadcasts : List String
  slots : List PadSlot
  deriving Repr, DecidableEq

/-- The `pad:clear-all` branch of `MainHandler.handle`
(`src/virtualpad/main_server.py` lines 87–90, wrapped by the blanket
`try`/`except` of lines 58–104): runs `release_all()`; on success sends the
`pad:ok` response and broadcasts `pad:all-cleared`; an exception escaping
`release_all` is caught by the blanket `except:` and only logged, so neither
a response nor a notification is produced. -/
def handle_pad_clear_all (slots : List PadSlot) : AdminOutcome :=
  match PadSlots.release_all slots with
  | (slots', _, none) =>
    { responses := ["pad:ok"], broadcasts := ["pad:all-cleared"], slots := slots' }
  | (slots', _, some _) =>
    { responses := [], broadcasts := [], slots := slots' }

/-- One public operation on a single slot, with the arguments the callers can
supply.  `release` carries `force`, `expect`, `zero` and the current time;
`occupy` carries the nickname and the connection index. -/
inductive SlotOp where
  | occupy : String → Int → SlotOp
  | release : Bool → Int → Bool → Int → SlotOp
  | emit : List (Int × Int) → SlotOp
  | heartbeat : SlotOp
  | serialize : SlotOp
  deriving Repr

/-- Effect of one operation on a slot.  Every raising path of the source
raises before mutating any field (`occupy` checks `OCCUPIED` first,
`release` checks the status first, `emit` and `heartbeat` raise inside their
guards), so an `.error` leaves the slot as it was; `emit` and `serialize`
never write to the slot at all. -/
def applyOp (s : PadSlot) : SlotOp → PadSlot
  | .occupy nick conn =>
    match s.occupy nick conn with
    | .ok s' => s'
    | .error _ => s
  | .release force expect zero now =>
    match s.release force expect zero now with
    | .ok r => r.1
    | .error _ => s
  | .emit _ => s
  | .heartbeat =>
    match s.heartbeat with
    | .ok r => r.1
    | .error _ => s
  | .serialize => s

/-- A sequence of slot operations applied in order. -/
def runOps (ops : List SlotOp) (s : PadSlot) : PadSlot :=
  ops.foldl applyOp s

/-- An operation is well-formed when any `occupy` it performs carries a
non-negative connection index (connection indices are assigned from a
monotonically increasing counter starting at 0). -/
def connOk : SlotOp → Bool
  | .occupy _ conn => decide (0 ≤ conn)
  | _ => true

/-- The §3 invariant for the `OCCUPIED` state, minus the `last_used_at` part:
an occupied slot has a device and a non-negative connection index. -/
def occupiedInv (s : PadSlot) : Prop :=
  s.status = .OCCUPIED → s.device ≠ none ∧ 0 ≤ s.connection_index

/-- What one iteration of the post-login event loop of `PadHandler.handle`
(`src/virtualpad/pad_server.py` lines 177–217) does, besides reading. -/
inductive PadAction where
  | processEvents : List (Nat × Nat) → PadAction
  | wroteLengthMismatch : PadAction
  | padClear : PadAction
  | pong : PadAction
  deriving Repr, DecidableEq

/-- Groups a flat payload into `(key, state)` pairs, as the
`buffer[index:index + 2]` loop of `_process_events` does. -/
def toPairs : List Nat → List (Nat × Nat)
  | a :: b :: rest => (a, b) :: toPairs rest
  | _ => []

/-- The post-login event loop of `PadHandler.handle` (lines 180–205) over the
byte stream still to arrive on the socket, as the list of actions taken.
Reads one length byte: below `N_BUTTONS = 18` it reads the `2·L` payload
bytes (a short read writes `COMMAND_LENGTH_MISMATCH` and returns), at
`CLOSE_CONNECTION = 19` it clears the pad and returns, at `PING = 20` it
writes `PONG` and continues; the `if`/`elif` chain has no final `else`, so
any other byte (18, or 21 and above) falls through and the loop continues
with the next length byte.  An exhausted stream ends the loop. -/
def padHandle : List Nat → List PadAction
  | [] => []
  | length :: rest =>
    if length < 18 then
      if (rest.take (2 * length)).length ≠ 2 * length then [.wroteLengthMismatch]
      else .processEvents (toPairs (rest.take (2 * length)))
        :: padHandle (rest.drop (2 * length))
    else if length = 19 then [.padClear]
    else if length = 20 then .pong :: padHandle rest
    else padHandle rest
termination_by l => l.length
decreasing_by
  all_goals simp [List.length_drop]
  all_goals omega

/-- `BroadcastServer._send_all` (`src/virtualpad/broadcast_server.py`
lines 82–93): the observer state is `none` before `server_activate` and after
`server_close`; in that case the method logs and returns without touching any
queue (and without raising).  Otherwise it appends the message to every
registered observer queue under the state lock.  The state is modelled as the
per-observer queues in registration order. -/
def sendAll (state : Option (List (List String))) (m : String) :
    Option (List (List String)) :=
  match state with
  | none => none
  | some qs => some (qs.map fun q => q ++ [m])

/-- The alphabet `random.choice` draws from in `_regenerate_password`. -/
def pwAlphabet : List Char := "abcdefghijklmnopqrstuvwxyz".data

/-- One character drawn from the alphabet. -/
def pwPick (i : Fin 26) : Char := pwAlphabet.getD i.val 'a'

/-- `_regenerate_password()` from `src/virtualpad/pads/settings.py`
(lines 10–11): four characters drawn from `a…z`.  The random draws are
supplied by the stream `r`; the call numbered `k` (0-based, in program order)
consumes draws `4k … 4k+3`. -/
def _regenerate_password (r : Nat → Fin 26) (k : Nat) : String :=
  String.mk [pwPick (r (4 * k)), pwPick (r (4 * k + 1)),
             pwPick (r (4 * k + 2)), pwPick (r (4 * k + 3))]

/-- The loop of `passwords_regenerate` (settings.py lines 63–66): indices not
in `SLOTS_INDICES` are skipped by `continue` (consuming no randomness),
indices in range are overwritten with a freshly generated password.  `k`
counts the `_regenerate_password` calls made so far. -/
def regenGo (r : Nat → Fin 26) : List Int → List String → Nat → List String
  | [], pws, _ => pws
  | i :: rest, pws, k =>
    if i ∈ SLOTS_INDICES then
      regenGo r rest (pySet pws i (_regenerate_password r k)) (k + 1)
    else regenGo r rest pws k

/-- `passwords_regenerate(*args)` (settings.py lines 53–67): an empty argument
list is replaced by `tuple(range(8))`; the loaded password vector is passed in
explicitly and the updated vector is returned in place of `save`. -/
def passwords_regenerate (args : List Int) (passwords : List String)
    (r : Nat → Fin 26) : List String :=
  regenGo r (if args = [] then SLOTS_INDICES else args) passwords 0

/-- A 4-character all-lowercase ASCII password. -/
def isLower4 (s : String) : Bool :=
  s.length = 4 && s.data.all fun c => decide ('a' ≤ c) && decide (c ≤ 'z')

/-! ## Helper lemmas -/

theorem list_set_self {α : Type} : ∀ (l : List α) (n : Nat) (a : α),
    l.get? n = some a → l.set n a = l
  | [], _, _, h => absurd h (by simp)
  | x :: xs, 0, a, h => by
    cases Option.some.inj h
    rfl
  | x :: xs, n + 1, a, h => by
    show x :: xs.set n a = x :: xs
    rw [list_set_self xs n a h]

theorem list_get?_set_ne {α : Type} : ∀ (l : List α) (n m : Nat) (a : α),
    n ≠ m → (l.set n a).get? m = l.get? m
  | [], _, _, _, _ => rfl
  | _ :: _, 0, 0, _, h => absurd rfl h
  | _ :: xs, 0, m + 1, a, _ => rfl
  | _ :: xs, n + 1, 0, a, _ => rfl
  | _ :: xs, n + 1, m + 1, a, h =>
    list_get?_set_ne xs n m a (by omega)

theorem list_get?_set_self {α : Type} : ∀ (l : List α) (n : Nat) (a : α),
    n < l.length → (l.set n a).get? n = some a
  | [], n, _, h => absurd h (Nat.not_lt_zero n)
  | _ :: _, 0, _, _ => rfl
  | _ :: xs, n + 1, a, h =>
    list_get?_set_self xs n a (Nat.lt_of_succ_lt_succ h)

/-- Writing back the element that is already there is the identity. -/
theorem pySet_self {α : Type} (l : List α) (i : Int) (a : α)
    (h : pyGet l i = some a) : pySet l i a = l := by
  unfold pyGet at h
  unfold pySet
  cases hidx : pyIdx l.length i with
  | none => rfl
  | some n =>
    rw [hidx] at h
    exact list_set_self l n a h

theorem pySet_length {α : Type} (l : List α) (i : Int) (a : α) :
    (pySet l i a).length = l.length := by
  unfold pySet
  cases pyIdx l.length i <;> simp

theorem pyGet_out_of_range {α : Type} (l : List α) (i : Int)
    (hl : l.length = 8) (hi : 8 ≤ i ∨ i < -8) : pyGet l i = none := by
  unfold pyGet pyIdx
  rw [hl]
  split_ifs with h1 h2
  · omega
  · omega
  · rfl

theorem pyGet_in_range {α : Type} (l : List α) (i : Int)
    (hl : l.length = 8) (h0 : -8 ≤ i) (h8 : i < 8) :
    ∃ a, pyGet l i = some a := by
  unfold pyGet pyIdx
  rw [hl]
  split_ifs with h1 h2
  · have hlt : i.toNat < l.length := by omega
    cases hg : l.get? i.toNat with
    | none => rw [List.get?_eq_none] at hg; omega
    | some a => exact ⟨a, hg⟩
  · have hlt : (((8 : Nat) : Int) + i).toNat < l.length := by omega
    cases hg : l.get? (((8 : Nat) : Int) + i).toNat with
    | none => rw [List.get?_eq_none] at hg; omega
    | some a => exact ⟨a, hg⟩
  · omega

theorem mem_SLOTS_INDICES (i : Int) : i ∈ SLOTS_INDICES ↔ 0 ≤ i ∧ i < 8 := by
  simp [SLOTS_INDICES]
  omega

/-! ## C1: the OCCUPIED invariant under operation sequences -/

theorem occupiedInv_applyOp (s : PadSlot) (op : SlotOp)
    (hop : connOk op = true) (hs : occupiedInv s) :
    occupiedInv (applyOp s op) := by
  cases op with
  | occupy nick conn =>
    simp only [connOk, decide_eq_true_eq] at hop
    by_cases h : s.status = .OCCUPIED
    · simpa [applyOp, PadSlot.occupy, h] using hs
    · simp only [applyOp, PadSlot.occupy, h, if_false]
      intro _
      refine ⟨?_, hop⟩
      by_cases hd : s.device = none <;> simp [hd]
  | release force expect zero now =>
    cases force with
    | true =>
      by_cases h : s.status = .EMPTY
      · simpa [applyOp, PadSlot.release, h] using hs
      · simp [applyOp, PadSlot.release, h, occupiedInv]
    | false =>
      by_cases h : s.status = .OCCUPIED
      · by_cases he : expect = -1 ∨ expect = s.connection_index
        · simp [applyOp, PadSlot.release, h, he, occupiedInv]
        · simpa [applyOp, PadSlot.release, h, he] using hs
      · simpa [applyOp, PadSlot.release, h] using hs
  | emit evs => exact hs
  | heartbeat =>
    by_cases h : s.status = .RECENTLY_USED
    · simpa [applyOp, PadSlot.heartbeat, h] using hs
    · simpa [applyOp, PadSlot.heartbeat, h] using hs
  | serialize => exact hs

theorem occupiedInv_runOps (ops : List SlotOp) (s : PadSlot)
    (h : ops.all connOk = true) (hs : occupiedInv s) :
    occupiedInv (runOps ops s) := by
  induction ops generalizing s with
  | nil => exact hs
  | cons op rest ih =>
    rw [List.all_cons, Bool.and_eq_true] at h
    exact ih (applyOp s op) h.2 (occupiedInv_applyOp s op h.1 hs)

/-- C1 (amended): for every sequence of slot operations starting from the
initial slot state, in which every `occupy` carries a non-negative connection
index, a slot in state `OCCUPIED` has `device ≠ none ∧ connection_id ≥ 0`.
(The further conjunct `last_used_at = none` claimed for `OCCUPIED` slots is
refuted by `C1_last_used_at_counterexample`: `occupy` does not clear
`_last_user_stamp`, so occupying a `RECENTLY_USED` slot keeps the old
timestamp.) -/
theorem C1_occupied_invariant (ops : List SlotOp) (i : Int)
    (h : ops.all connOk = true) :
    occupiedInv (runOps ops (PadSlot.init i)) :=
  occupiedInv_runOps ops _ h (by intro hst; simp [PadSlot.init] at hst)

theorem C1_occupied_invariant_witness :
    occupiedInv (runOps [.occupy "alice" 0, .heartbeat, .occupy "bob" 1]
      (PadSlot.init 0)) :=
  C1_occupied_invariant [.occupy "alice" 0, .heartbeat, .occupy "bob" 1] 0
    (by decide)

/-- C1 counterexample: after `occupy`, graceful `release` at time 100 (slot
becomes `RECENTLY_USED` with `last_used_at = 100`) and a second `occupy`, the
slot is `OCCUPIED` but `last_used_at` is still `some 100`, not `none` as the
claim states. -/
theorem C1_last_used_at_counterexample :
    (runOps [.occupy "alice" 0, .release false (-1) false 100, .occupy "bob" 1]
      (PadSlot.init 0)).status = .OCCUPIED ∧
    (runOps [.occupy "alice" 0, .release false (-1) false 100, .occupy "bob" 1]
      (PadSlot.init 0)).last_user_stamp = some 100 := by
  constructor <;> rfl

/-! ## C2: heartbeat -/

/-- C2 (code bug): `Heartbeat()` on a `RECENTLY_USED` slot raises `TypeError`
instead of checking the cooldown — the source computes
`datetime.datetime.now() - self._status`, subtracting the status enum rather
than `self._last_user_stamp` — so no `RECENTLY_USED` slot is ever reclaimed;
slots in any other state return `false` unchanged, as the claim says. -/
theorem C2_heartbeat_raises (s : PadSlot) :
    (s.status = .RECENTLY_USED → s.heartbeat = .error .typeError) ∧
    (s.status ≠ .RECENTLY_USED → s.heartbeat = .ok (s, false)) := by
  constructor <;> intro h <;> simp [PadSlot.heartbeat, h]

/-- A slot sitting in cooldown since time 0. -/
def recentSlot : PadSlot :=
  { PadSlot.init 0 with
    status := .RECENTLY_USED,
    device := some "Hawa-VirtualPad-0",
    last_user_stamp := some 0 }

theorem C2_heartbeat_raises_witness :
    recentSlot.heartbeat = .error .typeError :=
  (C2_heartbeat_raises recentSlot).1 rfl

/-! ## C3: emit on an occupied slot -/

/-- Slot 0 occupied by connection 5 under nickname "alice". -/
def occSlot0 : PadSlot :=
  { PadSlot.init 0 with
    status := .OCCUPIED,
    device := some "Hawa-VirtualPad-0",
    nickname := "alice",
    connection_index := 5 }

/-- The initial slot array with slot 0 occupied by connection 5. -/
def slotsOcc0 : List PadSlot := pySet PadSlots.init 0 occSlot0

/-- C3 (code bug): `Emit(0, [(BTN_SOUTH, 1)], expect)` on an occupied slot
raises `TypeError` — `PadSlot.emit` calls the module-level `devices.emit`
with the events as its only argument, omitting the device — both with
`expect = −1` and with the matching `expect = 5`; no event reaches the
device. -/
theorem C3_emit_raises_type_error :
    PadSlots.emit slotsOcc0 0 [(2, 1)] (-1) = .error .typeError ∧
    PadSlots.emit slotsOcc0 0 [(2, 1)] 5 = .error .typeError := by
  constructor <;> rfl

/-! ## C4: D-pad folding into axes -/

/-- C4 (code bug): the two emission functions disagree on the D-pad X axis.
For the single-event frame "LEFT pressed" (event 12, state 1),
`devices.emit` adds `0` to the pending-X set and emits `ABS_X = 0`, as the
claim states, but `_pad_send_all_mode1` adds `255` and emits `ABS_X = 255`;
symmetrically for "RIGHT pressed" (event 13, state 1).  The two cited
implementations have the LEFT/RIGHT tables swapped relative to one
another. -/
theorem C4_mode1_swaps_left_right :
    devices_emit [(12, 1)] = [.abs 14 0, .syn] ∧
    devices_emit [(13, 1)] = [.abs 14 255, .syn] ∧
    pad_send_all_mode1 [(12, 1)] = [.abs 14 255, .syn] ∧
    pad_send_all_mode1 [(13, 1)] = [.abs 14 0, .syn] :=
  ⟨rfl, rfl, rfl, rfl⟩

/-! ## C5: graceful release with a mismatched connection id -/

theorem release_mismatch_slot (s : PadSlot) (k now : Int) (zero : Bool)
    (h1 : s.status = .OCCUPIED) (h2 : 0 ≤ k)
    (h3 : k ≠ s.connection_index) :
    s.release false k zero now = .ok (s, []) := by
  have hk : ¬ (k = -1 ∨ k = s.connection_index) := by
    rintro (rfl | rfl)
    · omega
    · exact h3 rfl
  simp [PadSlot.release, h1, hk]

/-- C5: `Release(i, force=false, expect=k, zero)` with `k ≥ 0` different from
the occupant's connection id returns without raising, leaves the slot array
exactly as it was (every field of every slot unchanged), and emits nothing to
the device. -/
theorem C5_release_mismatch_is_noop (slots : List PadSlot) (i k now : Int)
    (zero : Bool) (s : PadSlot) (hs : pyGet slots i = some s)
    (h1 : s.status = .OCCUPIED) (h2 : 0 ≤ k)
    (h3 : k ≠ s.connection_index) :
    PadSlots.release slots i false k zero now = .ok (slots, []) := by
  unfold PadSlots.release
  rw [hs]
  show Except.map (fun r => (pySet slots i r.1, r.2))
    (s.release false k zero now) = Except.ok (slots, [])
  rw [release_mismatch_slot s k now zero h1 h2 h3]
  simp [Except.map, pySet_self slots i s hs]

theorem C5_release_mismatch_is_noop_witness :
    PadSlots.release slotsOcc0 0 false 9 true 50 = .ok (slotsOcc0, []) :=
  C5_release_mismatch_is_noop slotsOcc0 0 9 50 true occSlot0 rfl rfl
    (by decide) (by decide)

/-! ## C6: index range checking -/

/-- Whether a call failed with `PadIndexOutOfRange`. -/
def isIndexError {α : Type} : Except PyError α → Bool
  | .error (.padIndexOutOfRange _) => true
  | _ => false

theorem isIndexError_map {α β : Type} (f : α → β) (e : Except PyError α) :
    isIndexError (Except.map f e) = isIndexError e := by
  cases e with
  | ok a => rfl
  | error x => cases x <;> rfl

/-- The initial slot array with slot 7 occupied by connection 3. -/
def slotsOcc7 : List PadSlot :=
  pySet PadSlots.init 7
    { PadSlot.init 7 with
      status := .OCCUPIED,
      device := some "Hawa-VirtualPad-7",
      nickname := "bob",
      connection_index := 3 }

/-- C6 counterexample: `Release(-1, force=true, expect=-1, zero=true)` on an
array whose slot 7 is occupied does not fail with `IndexOutOfRange` — the
`try`/`except IndexError` around `self._slots[pad_index]` lets Python resolve
the negative index from the back — it succeeds, force-releases slot 7 (the
array visibly changes) and emits the neutral frame to slot 7's device. -/
theorem C6_negative_index_counterexample :
    PadSlots.release slotsOcc7 (-1) true (-1) true 0 =
      .ok (PadSlots.init, emit_zero_out) ∧
    slotsOcc7 ≠ PadSlots.init := by
  constructor
  · rfl
  · decide

theorem C6_amended_bounds (slots : List PadSlot) (passwords : List String)
    (i : Int) (nick pw : String) (conn : Int) (evs : List (Int × Int))
    (force : Bool) (expect : Int) (zero : Bool) (now : Int)
    (h8 : slots.length = 8) :
    ((8 ≤ i ∨ i < -8) →
      PadSlots.occupy slots passwords i nick pw conn =
        .error (.padIndexOutOfRange i) ∧
      PadSlots.release slots i force expect zero now =
        .error (.padIndexOutOfRange i) ∧
      PadSlots.emit slots i evs expect = .error (.padIndexOutOfRange i)) ∧
    (-8 ≤ i → i < 8 →
      isIndexError (PadSlots.occupy slots passwords i nick pw conn) = false ∧
      isIndexError (PadSlots.release slots i force expect zero now) = false ∧
      isIndexError (PadSlots.emit slots i evs expect) = false) := by
  constructor
  · intro hout
    have hn : pyGet slots i = none := pyGet_out_of_range slots i h8 hout
    refine ⟨?_, ?_, ?_⟩
    · unfold PadSlots.occupy
      rw [hn]
    · unfold PadSlots.release
      rw [hn]
    · unfold PadSlots.emit
      rw [hn]
  · intro h0 hlt
    obtain ⟨pad, hpad⟩ := pyGet_in_range slots i h8 h0 hlt
    refine ⟨?_, ?_, ?_⟩
    · unfold PadSlots.occupy
      rw [hpad]
      show isIndexError
        (if ¬ passwords_check passwords i pw then
          Except.error PyError.authenticationFailed
        else Except.map (fun p => pySet slots i p) (pad.occupy nick conn))
          = false
      by_cases hc : passwords_check passwords i pw
      · rw [if_neg (by simpa using hc), isIndexError_map]
        unfold PadSlot.occupy
        split_ifs <;> rfl
      · rw [if_pos (by simpa using hc)]
        rfl
    · unfold PadSlots.release
      rw [hpad]
      show isIndexError (Except.map (fun r => (pySet slots i r.1, r.2))
        (pad.release force expect zero now)) = false
      rw [isIndexError_map]
      unfold PadSlot.release
      split_ifs <;> rfl
    · unfold PadSlots.emit
      rw [hpad]
      show isIndexError
        (if ¬ (expect = -1 ∨ expect = pad.connection_index) then
          Except.error (PyError.padMismatch i)
        else pad.emit evs) = false
      split_ifs with hm
      all_goals first
        | rfl
        | (unfold PadSlot.emit; split_ifs <;> rfl)

theorem C6_amended_bounds_witness :
    ((8 ≤ (9 : Int) ∨ (9 : Int) < -8) →
      PadSlots.occupy PadSlots.init [] 9 "nick" "pw" 0 =
        .error (.padIndexOutOfRange 9) ∧
      PadSlots.release PadSlots.init 9 true (-1) true 0 =
        .error (.padIndexOutOfRange 9) ∧
      PadSlots.emit PadSlots.init 9 [] (-1) =
        .error (.padIndexOutOfRange 9)) ∧
    (-8 ≤ (9 : Int) → (9 : Int) < 8 →
      isIndexError (PadSlots.occupy PadSlots.init [] 9 "nick" "pw" 0) = false ∧
      isIndexError (PadSlots.release PadSlots.init 9 true (-1) true 0) = false ∧
      isIndexError (PadSlots.emit PadSlots.init 9 [] (-1)) = false) :=
  C6_amended_bounds PadSlots.init [] 9 "nick" "pw" 0 [] true (-1) true 0 rfl

/-! ## C7: unknown length bytes in the pad event loop -/

/-- C7 counterexample: after the invalid length byte `18` the loop keeps
reading — the following `PING` (`20`) is still processed and answered with
`PONG` — instead of treating `18` as a protocol error and closing. -/
theorem C7_invalid_byte_counterexample :
    padHandle [18, 20] = [.pong] := by
  simp [padHandle]

/-- C7 (amended): a length byte that is neither a short-frame length
(`< 18`), nor `CLOSE_CONNECTION = 19`, nor `PING = 20` — i.e. `18` or
anything `≥ 21` — is silently ignored: the `if`/`elif` chain has no final
`else`, so the loop performs no action for it and continues with the next
command, rather than closing the connection. -/
theorem C7_unknown_byte_ignored (L : Nat) (rest : List Nat)
    (h1 : 18 ≤ L) (h2 : L ≠ 19) (h3 : L ≠ 20) :
    padHandle (L :: rest) = padHandle rest := by
  have hn : ¬ L < 18 := by omega
  rw [padHandle]
  simp [hn, h2, h3]

theorem C7_unknown_byte_ignored_witness :
    padHandle [18, 19, 20] = padHandle [19, 20] :=
  C7_unknown_byte_ignored 18 [19, 20] (by decide) (by decide) (by decide)

/-! ## C8: the admin pad:clear-all command -/

/-- The initial slot array with slot 1 occupied by connection 2. -/
def slotsOcc1 : List PadSlot :=
  pySet PadSlots.init 1
    { PadSlot.init 1 with
      status := .OCCUPIED,
      device := some "Hawa-VirtualPad-1",
      nickname := "carol",
      connection_index := 2 }

/-- C8 (code bug): `pad:clear-all` does not tolerate `EMPTY` slots.
`release_all` force-releases every slot in order, and a force release of an
`EMPTY` slot raises `PadNotInUse`; the blanket `except:` of
`MainHandler.handle` swallows the exception, so on a fresh (all-`EMPTY`)
array the command produces no `pad:ok` response and no `pad:all-cleared`
notification — and on an array whose slot 0 is `EMPTY` while slot 1 is
occupied, the loop aborts at slot 0 and slot 1 stays occupied. -/
theorem C8_clear_all_fails_on_empty_slot :
    handle_pad_clear_all PadSlots.init =
      { responses := [], broadcasts := [], slots := PadSlots.init } ∧
    handle_pad_clear_all slotsOcc1 =
      { responses := [], broadcasts := [], slots := slotsOcc1 } := by
  constructor <;> rfl

/-! ## C9: broadcast to every registered observer queue -/

theorem list_get?_map {α β : Type} (f : α → β) : ∀ (l : List α) (n : Nat),
    (l.map f).get? n = (l.get? n).map f
  | [], _ => rfl
  | _ :: _, 0 => rfl
  | _ :: l, n + 1 => list_get?_map f l n

/-- C9: `_send_all` on a cleared server (state `none`, i.e. before
`server_activate` or after `server_close`) returns normally having enqueued
the message on no queue; with the state present it appends the message to
every registered observer queue (the function is total: no raising path
exists in either case). -/
theorem C9_send_all_behaviour (st : Option (List (List String)))
    (m : String) :
    (st = none → sendAll st m = none) ∧
    (∀ qs, st = some qs →
      ∃ qs', sendAll st m = some qs' ∧ qs'.length = qs.length ∧
        ∀ j q, qs.get? j = some q → qs'.get? j = some (q ++ [m])) := by
  constructor
  · rintro rfl
    rfl
  · rintro qs rfl
    refine ⟨qs.map (fun q => q ++ [m]), rfl, by simp, ?_⟩
    intro j q hq
    rw [list_get?_map, hq]
    rfl

theorem C9_send_all_behaviour_witness :
    ∃ qs', sendAll (some [[], ["x"]]) "m" = some qs' ∧
      qs'.length = ([[], ["x"]] : List (List String)).length ∧
      ∀ j q, ([[], ["x"]] : List (List String)).get? j = some q →
        qs'.get? j = some (q ++ ["m"]) :=
  (C9_send_all_behaviour (some [[], ["x"]]) "m").2 [[], ["x"]] rfl

/-! ## C10: password regeneration -/

theorem pwPick_lower : ∀ i : Fin 26,
    (decide ('a' ≤ pwPick i) && decide (pwPick i ≤ 'z')) = true := by decide

theorem regenerate_password_lower4 (r : Nat → Fin 26) (k : Nat) :
    isLower4 (_regenerate_password r k) = true := by
  unfold isLower4 _regenerate_password
  simp [pwPick_lower]

theorem pyIdx_nonneg (len : Nat) (i : Int) (n : Nat) (h0 : 0 ≤ i)
    (h : pyIdx len i = some n) : n = i.toNat ∧ i < len := by
  unfold pyIdx at h
  split_ifs at h with h1 h2
  · exact ⟨(Option.some.inj h).symm, h1.2⟩
  · omega

theorem pyGet_pySet_ne {α : Type} (l : List α) (i j : Int) (a : α)
    (hi : 0 ≤ i) (hj : 0 ≤ j) (hne : i ≠ j) :
    pyGet (pySet l j a) i = pyGet l i := by
  unfold pySet
  cases hjdx : pyIdx l.length j with
  | none => rfl
  | some n =>
    obtain ⟨hn, hjlt⟩ := pyIdx_nonneg l.length j n hj hjdx
    unfold pyGet
    have hlen : (l.set n a).length = l.length := by simp
    rw [hlen]
    cases hidx : pyIdx l.length i with
    | none => rfl
    | some m =>
      obtain ⟨hm, hilt⟩ := pyIdx_nonneg l.length i m hi hidx
      show (l.set n a).get? m = l.get? m
      exact list_get?_set_ne l n m a (by omega)

theorem pyGet_pySet_self {α : Type} (l : List α) (i : Int) (a : α)
    (h0 : 0 ≤ i) (hlt : i < l.length) :
    pyGet (pySet l i a) i = some a := by
  have hidx : pyIdx l.length i = some i.toNat := by
    unfold pyIdx
    rw [if_pos ⟨h0, hlt⟩]
  unfold pySet
  rw [hidx]
  unfold pyGet
  have hlen : (l.set i.toNat a).length = l.length := by simp
  rw [hlen, hidx]
  show (l.set i.toNat a).get? i.toNat = some a
  exact list_get?_set_self l i.toNat a (by omega)

theorem regenGo_invalid (r : Nat → Fin 26) :
    ∀ (args : List Int) (pws : List String) (k : Nat),
    (∀ i ∈ args, i ∉ SLOTS_INDICES) → regenGo r args pws k = pws
  | [], _, _, _ => rfl
  | j :: rest, pws, k, h => by
    have hj : j ∉ SLOTS_INDICES := h j (List.mem_cons_self j rest)
    simp only [regenGo]
    rw [if_neg hj]
    exact regenGo_invalid r rest pws k fun i hi => h i (List.mem_cons_of_mem j hi)

theorem regenGo_length (r : Nat → Fin 26) :
    ∀ (args : List Int) (pws : List String) (k : Nat),
    (regenGo r args pws k).length = pws.length
  | [], _, _ => rfl
  | j :: rest, pws, k => by
    by_cases hj : j ∈ SLOTS_INDICES
    · simp only [regenGo]
      rw [if_pos hj, regenGo_length r rest _ (k + 1), pySet_length]
    · simp only [regenGo]
      rw [if_neg hj]
      exact regenGo_length r rest pws k

theorem regenGo_unlisted (r : Nat → Fin 26) :
    ∀ (args : List Int) (pws : List String) (k : Nat) (i : Int),
    0 ≤ i → i ∉ args → pyGet (regenGo r args pws k) i = pyGet pws i
  | [], _, _, _, _, _ => rfl
  | j :: rest, pws, k, i, h0, hni => by
    have hij : i ≠ j := fun h => hni (h ▸ List.mem_cons_self j rest)
    have hnr : i ∉ rest := fun h => hni (List.mem_cons_of_mem j h)
    by_cases hj : j ∈ SLOTS_INDICES
    · simp only [regenGo]
      rw [if_pos hj, regenGo_unlisted r rest _ (k + 1) i h0 hnr]
      exact pyGet_pySet_ne pws i j _ h0 ((mem_SLOTS_INDICES j).mp hj).1 hij
    · simp only [regenGo]
      rw [if_neg hj]
      exact regenGo_unlisted r rest pws k i h0 hnr

theorem regenGo_listed (r : Nat → Fin 26) :
    ∀ (args : List Int) (pws : List String) (k : Nat) (i : Int),
    pws.length = 8 → i ∈ SLOTS_INDICES → i ∈ args →
    ∃ n, pyGet (regenGo r args pws k) i = some (_regenerate_password r n)
  | [], _, _, _, _, _, hmem => absurd hmem (List.not_mem_nil _)
  | j :: rest, pws, k, i, h8, hS, hmem => by
    obtain ⟨hi0, hi8⟩ := (mem_SLOTS_INDICES i).mp hS
    by_cases hj : j ∈ SLOTS_INDICES
    · simp only [regenGo]
      rw [if_pos hj]
      by_cases hir : i ∈ rest
      · exact regenGo_listed r rest _ (k + 1) i
          (by rw [pySet_length]; exact h8) hS hir
      · have hij : i = j := by
          rcases List.mem_cons.mp hmem with h | h
          · exact h
          · exact absurd h hir
        subst hij
        rw [regenGo_unlisted r rest _ (k + 1) i hi0 hir]
        exact ⟨k, pyGet_pySet_self pws i _ hi0 (by omega)⟩
    · have hij : i ≠ j := fun h => hj (h ▸ hS)
      have hir : i ∈ rest := by
        rcases List.mem_cons.mp hmem with h | h
        · exact absurd h hij
        · exact h
      simp only [regenGo]
      rw [if_neg hj]
      exact regenGo_listed r rest pws k i h8 hS hir

theorem regenGo_step_mem (r : Nat → Fin 26) (i : Int) (rest : List Int)
    (pws : List String) (k : Nat) (h : i ∈ SLOTS_INDICES) :
    regenGo r (i :: rest) pws k =
      regenGo r rest (pySet pws i (_regenerate_password r k)) (k + 1) := by
  simp only [regenGo]
  rw [if_pos h]

theorem pySet_nonneg {α : Type} (l : List α) (j : Int) (a : α)
    (h0 : 0 ≤ j) (hlt : j < l.length) :
    pySet l j a = l.set j.toNat a := by
  unfold pySet pyIdx
  rw [if_pos ⟨h0, hlt⟩]

theorem regen_all_eight (r : Nat → Fin 26) (pws : List String)
    (h8 : pws.length = 8) :
    passwords_regenerate [] pws r =
      [_regenerate_password r 0, _regenerate_password r 1,
       _regenerate_password r 2, _regenerate_password r 3,
       _regenerate_password r 4, _regenerate_password r 5,
       _regenerate_password r 6, _regenerate_password r 7] := by
  rcases pws with _ | ⟨a0, _ | ⟨a1, _ | ⟨a2, _ | ⟨a3, _ | ⟨a4, _ | ⟨a5,
    _ | ⟨a6, _ | ⟨a7, _ | ⟨a8, t⟩⟩⟩⟩⟩⟩⟩⟩⟩ <;>
    try (simp only [List.length_cons, List.length_nil] at h8; omega)
  show regenGo r (if ([] : List Int) = [] then SLOTS_INDICES else [])
    [a0, a1, a2, a3, a4, a5, a6, a7] 0 = _
  rw [if_pos rfl]
  rw [show SLOTS_INDICES = [0, 1, 2, 3, 4, 5, 6, 7] from rfl]
  rw [regenGo_step_mem r 0 _ _ 0 (by decide),
    pySet_nonneg _ _ _ (by decide) (by norm_num)]
  rw [regenGo_step_mem r 1 _ _ 1 (by decide),
    pySet_nonneg _ _ _ (by decide) (by norm_num)]
  rw [regenGo_step_mem r 2 _ _ 2 (by decide),
    pySet_nonneg _ _ _ (by decide) (by norm_num)]
  rw [regenGo_step_mem r 3 _ _ 3 (by decide),
    pySet_nonneg _ _ _ (by decide) (by norm_num)]
  rw [regenGo_step_mem r 4 _ _ 4 (by decide),
    pySet_nonneg _ _ _ (by decide) (by norm_num)]
  rw [regenGo_step_mem r 5 _ _ 5 (by decide),
    pySet_nonneg _ _ _ (by decide) (by norm_num)]
  rw [regenGo_step_mem r 6 _ _ 6 (by decide),
    pySet_nonneg _ _ _ (by decide) (by norm_num)]
  rw [regenGo_step_mem r 7 _ _ 7 (by decide),
    pySet_nonneg _ _ _ (by decide) (by norm_num)]
  simp only [regenGo]
  rw [show ((0 : Int).toNat) = 0 from rfl, show ((1 : Int).toNat) = 1 from rfl,
    show ((2 : Int).toNat) = 2 from rfl, show ((3 : Int).toNat) = 3 from rfl,
    show ((4 : Int).toNat) = 4 from rfl, show ((5 : Int).toNat) = 5 from rfl,
    show ((6 : Int).toNat) = 6 from rfl, show ((7 : Int).toNat) = 7 from rfl]
  rfl

/-- C10: `passwords_regenerate(*args)` silently skips every listed index
outside `0 … 7` (if every listed index is invalid and the list is nonempty,
the stored vector is returned untouched — no error is raised); every valid
index not listed keeps its previous password; every listed valid index ends
up with a password freshly produced by `_regenerate_password` — four
lowercase `a…z` characters; and an empty argument list regenerates all eight
passwords, in slot order. -/
theorem C10_passwords_regenerate_spec (args : List Int) (pws : List String)
    (r : Nat → Fin 26) (h8 : pws.length = 8) :
    ((args ≠ [] ∧ ∀ i ∈ args, i ∉ SLOTS_INDICES) →
      passwords_regenerate args pws r = pws) ∧
    (args ≠ [] → ∀ i ∈ SLOTS_INDICES, i ∉ args →
      pyGet (passwords_regenerate args pws r) i = pyGet pws i) ∧
    (∀ i ∈ SLOTS_INDICES, (i ∈ args ∨ args = []) →
      ∃ n, pyGet (passwords_regenerate args pws r) i =
          some (_regenerate_password r n) ∧
        isLower4 (_regenerate_password r n) = true) ∧
    (args = [] →
      passwords_regenerate args pws r =
        (List.range 8).map fun n => _regenerate_password r n) := by
  refine ⟨?_, ?_, ?_, ?_⟩
  · rintro ⟨hne, hinv⟩
    unfold passwords_regenerate
    rw [if_neg hne]
    exact regenGo_invalid r args pws 0 hinv
  · intro hne i hS hni
    unfold passwords_regenerate
    rw [if_neg hne]
    exact regenGo_unlisted r args pws 0 i ((mem_SLOTS_INDICES i).mp hS).1 hni
  · intro i hS hmem
    rcases hmem with hmem | hmem
    · have hne : args ≠ [] := fun h => by
        rw [h] at hmem
        exact List.not_mem_nil i hmem
      unfold passwords_regenerate
      rw [if_neg hne]
      obtain ⟨n, hn⟩ := regenGo_listed r args pws 0 i h8 hS hmem
      exact ⟨n, hn, regenerate_password_lower4 r n⟩
    · subst hmem
      unfold passwords_regenerate
      rw [if_pos rfl]
      obtain ⟨n, hn⟩ := regenGo_listed r SLOTS_INDICES pws 0 i h8 hS hS
      exact ⟨n, hn, regenerate_password_lower4 r n⟩
  · intro he
    subst he
    rw [regen_all_eight r pws h8]
    rfl

/-- A concrete stored vector of eight passwords. -/
def pws8 : List String := ["aa", "bb", "cc", "dd", "ee", "ff", "gg", "hh"]

/-- A concrete stream of random draws. -/
def rzero : Nat → Fin 26 := fun _ => 0

theorem C10_passwords_regenerate_spec_witness :
    ((([9, 3] : List Int) ≠ [] ∧
        ∀ i ∈ ([9, 3] : List Int), i ∉ SLOTS_INDICES) →
      passwords_regenerate [9, 3] pws8 rzero = pws8) ∧
    (([9, 3] : List Int) ≠ [] → ∀ i ∈ SLOTS_INDICES,
      i ∉ ([9, 3] : List Int) →
      pyGet (passwords_regenerate [9, 3] pws8 rzero) i = pyGet pws8 i) ∧
    (∀ i ∈ SLOTS_INDICES, (i ∈ ([9, 3] : List Int) ∨ ([9, 3] : List Int) = []) →
      ∃ n, pyGet (passwords_regenerate [9, 3] pws8 rzero) i =
          some (_regenerate_password rzero n) ∧
        isLower4 (_regenerate_password rzero n) = true) ∧
    (([9, 3] : List Int) = [] →
      passwords_regenerate [9, 3] pws8 rzero =
        (List.range 8).map fun n => _regenerate_password rzero n) :=
  C10_passwords_regenerate_spec [9, 3] pws8 rzero rfl
